import Mathlib

/-!
Shallow embedding of the booking-service backend (src/server.js, primary
snapshot) for verification of its specification.

The program is a monolithic Express/Mongoose route file.  We embed the
data model (User, Treatment, embedded booking records), the bcrypt
library's contract, the token-based authentication middleware, and the
route handlers for registration, login, book-treatment,
booked-treatments, and user-info, plus the startup treatment-catalog
seeder.  Database state is explicit: every handler takes the store and
returns the response together with the store after the request.
-/

namespace BookingApi

/-- Model of a JavaScript `Date` built by `new Date(pickedDate)`
(src/server.js:289): the handler only constructs the value from the
request's `pickedDate` string and never inspects it, so we keep the raw
string. -/
structure JsDate where
  raw : String
deriving Repr, DecidableEq

/-- Model of a bcrypt hash digest, the value produced by
`bcrypt.hashSync(password, salt)` (src/server.js:190).  A bcrypt digest
is an opaque value deterministically derived from the salt and the
plaintext; we model it as the pair, as a type distinct from `String`,
so that a stored hash is never itself a plaintext string. -/
structure BcryptHash where
  salt : Nat
  input : String
deriving Repr, DecidableEq

/-- Model of `bcrypt.hashSync(password, salt)` (src/server.js:190). -/
def hashSync (password : String) (salt : Nat) : BcryptHash :=
  { salt := salt, input := password }

/-- Model of `bcrypt.compareSync(password, hash)` (src/server.js:218):
re-derive the digest from the candidate plaintext using the hash's own
salt and compare. -/
def compareSync (password : String) (h : BcryptHash) : Bool :=
  h == hashSync password h.salt

/-- A booking record as persisted inside a user document.  The
`UserSchema.bookedTreatments` sub-schema (src/server.js:98-105) declares
only a `treatment` reference path, so a persisted entry carries only the
treatment identity. -/
structure StoredBooking where
  treatment : Nat
deriving Repr, DecidableEq

/-- The plain booking object built by the book-treatment handler
(src/server.js:287-290): a treatment reference plus the picked date. -/
structure Booking where
  treatment : Nat
  bookedDate : JsDate
deriving Repr, DecidableEq

/-- Mongoose cast applied when the handler pushes the plain booking
object onto `user.bookedTreatments` (src/server.js:293): the sub-schema
(src/server.js:98-105) has only the `treatment` path and schemas are
strict by default, so every other property of the pushed object
(here `bookedDate`) is dropped from the stored sub-document. -/
def castBooking (b : Booking) : StoredBooking :=
  { treatment := b.treatment }

/-- A user document, after the `UserSchema` (src/server.js:63-106):
names, email, numeric mobile phone, the bcrypt password hash, the
access token issued at creation, and the embedded booking records. -/
structure User where
  id : Nat
  firstName : String
  lastName : String
  email : String
  mobilePhone : Int
  password : BcryptHash
  accessToken : String
  bookedTreatments : List StoredBooking
deriving Repr, DecidableEq

/-- A treatment document, after the `TreatmentSchema`
(src/server.js:112-116): an identity and a name. -/
structure Treatment where
  id : Nat
  name : String
deriving Repr, DecidableEq

/-- The sanitized projection returned by registration
(src/server.js:194-201) and login (src/server.js:221-228): names, email,
mobile phone, identity and access token; no password field. -/
structure UserProjection where
  firstName : String
  lastName : String
  email : String
  mobilePhone : Int
  id : Nat
  accessToken : String
deriving Repr, DecidableEq

/-- The projection rendered as a JSON-object field list, for stating
which keys the response body exposes. -/
def projectionDoc (p : UserProjection) : List (String × String) :=
  [("firstName", p.firstName),
   ("lastName", p.lastName),
   ("email", p.email),
   ("mobilePhone", toString p.mobilePhone),
   ("id", toString p.id),
   ("accessToken", p.accessToken)]

/-- The JSON body shapes the embedded handlers produce, one constructor
per distinct object literal in the source. -/
inductive ResponseBody where
  /-- Body at src/server.js:192-202: success true with the sanitized projection. -/
  | registerSuccess (p : UserProjection)
  /-- Body at src/server.js:180: success false, password-length message. -/
  | registerPwLenError
  /-- Body at src/server.js:205-210: success false, could-not-create-user with storage error detail. -/
  | registerSaveError
  /-- Body at src/server.js:219-229: success true with the sanitized projection. -/
  | loginSuccess (p : UserProjection)
  /-- Body at src/server.js:231-234: success false, the single generic credentials message. -/
  | loginFailure
  /-- Body at src/server.js:253-257: success false, please-log-in, loggedOut true. -/
  | authFailure
  /-- Body at src/server.js:296-300: success true with the plain booking object. -/
  | bookSuccess (b : Booking)
  /-- Body at src/server.js:279-282: success false, user-or-treatment-not-found. -/
  | bookNotFound
  /-- Body at src/server.js:316-320: success true with the booking list. -/
  | bookedList (l : List StoredBooking)
  /-- Body at src/server.js:337: success true with the whole user document. -/
  | userInfo (u : User)
deriving Repr, DecidableEq

/-- The `success` flag each body literal carries in the source. -/
def ResponseBody.successFlag : ResponseBody → Bool
  | .registerSuccess _ => true
  | .loginSuccess _ => true
  | .bookSuccess _ => true
  | .bookedList _ => true
  | .userInfo _ => true
  | _ => false

/-- The `loggedOut` flag, present only on the authentication-failure
body (src/server.js:256). -/
def ResponseBody.loggedOut : ResponseBody → Option Bool
  | .authFailure => some true
  | _ => none

/-- An HTTP response: status code and JSON body. -/
structure Response where
  status : Nat
  body : ResponseBody
deriving Repr, DecidableEq

/-- The persistent store: the users collection and the treatments
collection. -/
structure DB where
  users : List User
  treatments : List Treatment
deriving Repr, DecidableEq

/-- Model of `User.findOne({email: email})` (src/server.js:217): first
user whose email equals the given one. -/
def findByEmail (users : List User) (email : String) : Option User :=
  users.find? (fun u => u.email == email)

/-- Model of `User.findOne({accessToken: accessToken})`
(src/server.js:248) where the value is the `Authorization` header.
When the header is missing, `req.header` yields `undefined`; mongoose
strips filter keys whose value is `undefined` before querying, so the
call becomes `findOne({})` and returns the first stored user document,
if any. -/
def findOneByToken (users : List User) (header : Option String) : Option User :=
  match header with
  | none => users.head?
  | some tok => users.find? (fun u => u.accessToken == tok)

/-- Model of `User.findById(userId)` (src/server.js:274). -/
def findById (users : List User) (i : Nat) : Option User :=
  users.find? (fun u => u.id == i)

/-- Model of `Treatment.findById(treatmentId)` (src/server.js:275). -/
def findTreatment (treatments : List Treatment) (i : Nat) : Option Treatment :=
  treatments.find? (fun t => t.id == i)

/-- Model of `user.save()` on a document fetched from the collection
(src/server.js:294): write the modified document back in place of every
stored document with its identity. -/
def updateUser (users : List User) (u : User) : List User :=
  users.map (fun v => if v.id == u.id then u else v)

/-- Result of the authentication middleware: either continue with the
resolved user attached to the request, or halt with a response. -/
inductive AuthResult where
  | next (user : User)
  | halt (r : Response)
deriving Repr, DecidableEq

/-- The authentication middleware `authenticateUser`
(src/server.js:245-265): look the `Authorization` header value up as a
stored access token; on a match attach the user and continue, otherwise
respond 401 with `success:false` and `loggedOut:true`. -/
def authenticateUser (users : List User) (header : Option String) : AuthResult :=
  match findOneByToken users header with
  | some u => .next u
  | none => .halt { status := 401, body := .authFailure }

/-- A registration request body (src/server.js:178). -/
structure RegisterReq where
  firstName : String
  lastName : String
  email : String
  mobilePhone : Int
  password : String
deriving Repr, DecidableEq

/-- The `UserSchema` validation and uniqueness constraints checked when
a new user document is saved (src/server.js:63-108): required names of
length 2-30, required non-empty unique email, required unique numeric
mobile phone. -/
def validUserInput (users : List User) (r : RegisterReq) : Bool :=
  2 ≤ r.firstName.length && r.firstName.length ≤ 30 &&
  (2 ≤ r.lastName.length && r.lastName.length ≤ 30) &&
  (r.email ≠ "") &&
  users.all (fun u => u.email ≠ r.email) &&
  users.all (fun u => u.mobilePhone ≠ r.mobilePhone)

/-- The user document built and saved by the registration handler
(src/server.js:185-191): the password stored as its bcrypt hash, the
access token from the schema default generator (src/server.js:94-97),
and an empty booking list. -/
def mkNewUser (r : RegisterReq) (salt : Nat) (freshId : Nat) (tok : String) : User :=
  { id := freshId,
    firstName := r.firstName,
    lastName := r.lastName,
    email := r.email,
    mobilePhone := r.mobilePhone,
    password := hashSync r.password salt,
    accessToken := tok,
    bookedTreatments := [] }

/-- The sanitized projection of a user (src/server.js:194-201). -/
def userProjection (u : User) : UserProjection :=
  { firstName := u.firstName,
    lastName := u.lastName,
    email := u.email,
    mobilePhone := u.mobilePhone,
    id := u.id,
    accessToken := u.accessToken }

/-- The registration handler (src/server.js:177-212).  `salt` models the
random `bcrypt.genSaltSync(10)`, `freshId` the generated document
identity, `tok` the random token from the schema default.  When the
password length is out of the 15-20 range the handler sends the 400
response but has no `return`, so it still falls through into the
`try` block, hashes the password and saves the user; the later 201 (or
the catch handler's 400) then fails because headers were already sent,
so the client sees the first response while the save still happened. -/
def register (db : DB) (r : RegisterReq) (salt : Nat) (freshId : Nat) (tok : String) :
    Response × DB :=
  let pwBad := r.password.length < 15 || r.password.length > 20
  let newUser := mkNewUser r salt freshId tok
  if validUserInput db.users r then
    let db' : DB := { db with users := db.users ++ [newUser] }
    if pwBad then ({ status := 400, body := .registerPwLenError }, db')
    else ({ status := 201, body := .registerSuccess (userProjection newUser) }, db')
  else
    if pwBad then ({ status := 400, body := .registerPwLenError }, db)
    else ({ status := 400, body := .registerSaveError }, db)

/-- The login handler (src/server.js:214-242): find the user by email,
verify the password against the stored hash; on success return the
sanitized projection with the existing token, otherwise a single
generic 400 failure for both a missing user and a wrong password.
Login performs no write, so the store is returned unchanged. -/
def login (db : DB) (email : String) (password : String) : Response × DB :=
  match findByEmail db.users email with
  | some u =>
    if compareSync password u.password then
      ({ status := 200, body := .loginSuccess (userProjection u) }, db)
    else
      ({ status := 400, body := .loginFailure }, db)
  | none => ({ status := 400, body := .loginFailure }, db)

/-- The book-treatment handler body (src/server.js:267-308), after the
middleware resolved `authUser`: re-fetch the user by identity, fetch the
treatment; if either is missing respond 404 and change nothing; else
build the booking object, push its cast onto the user's booking list,
save, and respond 200 with the plain booking object. -/
def bookTreatment (db : DB) (authUser : User) (treatmentId : Nat) (pickedDate : String) :
    Response × DB :=
  match findById db.users authUser.id, findTreatment db.treatments treatmentId with
  | some user, some treatment =>
    let booking : Booking := { treatment := treatment.id, bookedDate := { raw := pickedDate } }
    let user' := { user with bookedTreatments := user.bookedTreatments ++ [castBooking booking] }
    ({ status := 200, body := .bookSuccess booking }, { db with users := updateUser db.users user' })
  | _, _ => ({ status := 404, body := .bookNotFound }, db)

/-- The POST /booktreatment endpoint: authentication middleware then the
book-treatment handler (src/server.js:267). -/
def bookTreatmentEndpoint (db : DB) (header : Option String) (treatmentId : Nat)
    (pickedDate : String) : Response × DB :=
  match authenticateUser db.users header with
  | .halt r => (r, db)
  | .next u => bookTreatment db u treatmentId pickedDate

/-- The GET /bookedTreatment endpoint (src/server.js:311-328):
authentication middleware, then respond with the user's booking list;
no write. -/
def bookedTreatmentsEndpoint (db : DB) (header : Option String) : Response × DB :=
  match authenticateUser db.users header with
  | .halt r => (r, db)
  | .next u => ({ status := 200, body := .bookedList u.bookedTreatments }, db)

/-- The GET /userinfo endpoint (src/server.js:333-344): authentication
middleware, then respond 200 with the entire user document; no write. -/
def userInfoEndpoint (db : DB) (header : Option String) : Response × DB :=
  match authenticateUser db.users header with
  | .halt r => (r, db)
  | .next u => ({ status := 200, body := .userInfo u }, db)

/-- The fixed seed list of the startup catalog seeder
(src/server.js:124-129). -/
def seedTreatmentNames : List String :=
  ["Haircut", "Hair Dye", "Haircut and Dye", "Hair styling"]

/-- Whether the store already holds a treatment with the given name,
the check `existingTreatments.find((t) => t.name === treatmentData.name)`
(src/server.js:137-139) against the snapshot fetched before the loop. -/
def hasName (treatments : List Treatment) (n : String) : Bool :=
  treatments.any (fun t => t.name == n)

/-- The seeder loop body (src/server.js:135-146): walk the seed names,
and save a new treatment (with a fresh identity) for each name absent
from the snapshot of the store taken before the loop. -/
def seedMissing (snapshot : List Treatment) (fresh : Nat) : List String → List Treatment
  | [] => []
  | n :: rest =>
    if hasName snapshot n then seedMissing snapshot fresh rest
    else { id := fresh, name := n } :: seedMissing snapshot (fresh + 1) rest

/-- The startup seeder `createTreatments` (src/server.js:121-156):
fetch the existing treatments once, then append a new treatment for
each seed name not yet present. -/
def createTreatments (treatments : List Treatment) (fresh : Nat) : List Treatment :=
  treatments ++ seedMissing treatments fresh seedTreatmentNames

/-- The booking object rendered as its JSON field list. -/
def bookingDoc (b : Booking) : List (String × String) :=
  [("treatment", toString b.treatment), ("bookedDate", b.bookedDate.raw)]

/-- A persisted booking record rendered as its JSON field list: only
the treatment reference is a schema path (src/server.js:98-105). -/
def storedBookingDoc (b : StoredBooking) : List (String × String) :=
  [("treatment", toString b.treatment)]

/-- A sample stored password hash, for concrete witnesses. -/
def aliceHash : BcryptHash := hashSync "correcthorsebatt" 10

/-- A sample registered user, for concrete witnesses. -/
def alice : User :=
  { id := 1,
    firstName := "Alice",
    lastName := "Smith",
    email := "alice@example.com",
    mobilePhone := 46701234567,
    password := aliceHash,
    accessToken := "tokenA",
    bookedTreatments := [] }

/-- A sample treatment catalog, for concrete witnesses. -/
def sampleCatalog : List Treatment :=
  [{ id := 5, name := "Haircut" }, { id := 6, name := "Hair Dye" }]

/-- A sample store holding one user and two treatments. -/
def sampleDB : DB := { users := [alice], treatments := sampleCatalog }

/-- A sample valid registration request, for concrete witnesses. -/
def validReq : RegisterReq :=
  { firstName := "Anna",
    lastName := "Jones",
    email := "anna.j@example.com",
    mobilePhone := 46700000001,
    password := "abcdefghijklmnop" }

/-- A registration request whose password is shorter than 15
characters but whose other fields pass the schema validation. -/
def shortPwReq : RegisterReq :=
  { firstName := "Anna",
    lastName := "Jones",
    email := "anna.j@example.com",
    mobilePhone := 46700000001,
    password := "short" }

theorem find?_none_of_all {α : Type} (p : α → Bool) (l : List α)
    (h : ∀ x ∈ l, p x = false) : l.find? p = none := by
  induction l with
  | nil => rfl
  | cons a t ih =>
    rw [List.find?_cons, h a (by simp)]
    exact ih (fun x hx => h x (by simp [hx]))

theorem find?_append_of_none {α : Type} (p : α → Bool) (l₁ l₂ : List α)
    (h : l₁.find? p = none) : (l₁ ++ l₂).find? p = l₂.find? p := by
  induction l₁ with
  | nil => rfl
  | cons a t ih =>
    rw [List.find?_cons] at h
    cases hpa : p a with
    | true => rw [hpa] at h; exact absurd h (by simp)
    | false =>
      rw [hpa] at h
      rw [List.cons_append, List.find?_cons, hpa]
      exact ih h

/-- C1: the claim fails on the code for the missing-header half.  With
no `Authorization` header, `req.header` yields `undefined`, mongoose
strips the undefined-valued filter key, and
`User.findOne({accessToken: undefined})` (src/server.js:248) runs as
`findOne({})`, returning the first stored user — the middleware calls
`next()` and, against a store holding one user, the user-info and
booked-treatments endpoints respond 200 with that user's data and
book-treatment even appends a booking to that user's document.  A
present-but-unmatched header still gets the 401 with success false and
loggedOut true, as the last conjunct shows. -/
theorem missing_header_authenticates_first_user :
    userInfoEndpoint sampleDB none = ({ status := 200, body := .userInfo alice }, sampleDB) ∧
    bookedTreatmentsEndpoint sampleDB none =
      ({ status := 200, body := .bookedList alice.bookedTreatments }, sampleDB) ∧
    bookTreatmentEndpoint sampleDB none 5 "2023-07-01" =
      ({ status := 200,
         body := .bookSuccess { treatment := 5, bookedDate := { raw := "2023-07-01" } } },
       { users := [{ alice with bookedTreatments := [{ treatment := 5 }] }],
         treatments := sampleCatalog }) ∧
    userInfoEndpoint sampleDB (some "garbage") =
      ({ status := 401, body := .authFailure }, sampleDB) ∧
    ResponseBody.successFlag .authFailure = false ∧
    ResponseBody.loggedOut .authFailure = some true := by
  refine ⟨by decide, by decide, by decide, by decide, rfl, rfl⟩

/-- C3: for every authenticated book-treatment request whose treatment
identity is not in the catalog, the handler responds 404 with the
not-found body and the store — in particular the authenticated user's
bookedTreatments list — is unchanged. -/
theorem book_missing_treatment_not_found (db : DB) (header : Option String) (u : User)
    (tid : Nat) (pd : String)
    (hauth : findOneByToken db.users header = some u)
    (ht : findTreatment db.treatments tid = none) :
    bookTreatmentEndpoint db header tid pd = ({ status := 404, body := .bookNotFound }, db) := by
  cases hid : findById db.users u.id with
  | none => simp [bookTreatmentEndpoint, authenticateUser, hauth, bookTreatment, hid, ht]
  | some w => simp [bookTreatmentEndpoint, authenticateUser, hauth, bookTreatment, hid, ht]

theorem book_missing_treatment_not_found_witness :
    bookTreatmentEndpoint sampleDB (some "tokenA") 99 "2023-07-01" =
      ({ status := 404, body := .bookNotFound }, sampleDB) :=
  book_missing_treatment_not_found sampleDB (some "tokenA") alice 99 "2023-07-01"
    (by decide) (by decide)

/-- C5: a login with a registered email and a wrong password and a
login with an unregistered email produce identical responses — the same
400 status and the same generic failure body — so the caller cannot
distinguish the two failure causes. -/
theorem login_failures_indistinguishable (db : DB) (e₁ p₁ e₂ p₂ : String) (u : User)
    (h₁ : findByEmail db.users e₁ = some u)
    (h₂ : compareSync p₁ u.password = false)
    (h₃ : findByEmail db.users e₂ = none) :
    login db e₁ p₁ = login db e₂ p₂ ∧
    login db e₁ p₁ = ({ status := 400, body := .loginFailure }, db) := by
  constructor <;> simp [login, h₁, h₂, h₃]

theorem login_failures_indistinguishable_witness :
    login sampleDB "alice@example.com" "wrongpassword000" =
      login sampleDB "nobody@example.com" "whatever" ∧
    login sampleDB "alice@example.com" "wrongpassword000" =
      ({ status := 400, body := .loginFailure }, sampleDB) :=
  login_failures_indistinguishable sampleDB "alice@example.com" "wrongpassword000"
    "nobody@example.com" "whatever" alice (by decide) (by decide) (by decide)

/-- C10: for every authenticated GET user-info request, the response is
200 and its body carries the caller's entire stored user document — the
`userInfo` body holds the full `User` value, including its `password`
hash, `accessToken` and `bookedTreatments` fields — and the store is
unchanged. -/
theorem user_info_returns_full_document (db : DB) (header : Option String) (u : User)
    (hauth : findOneByToken db.users header = some u) :
    userInfoEndpoint db header = ({ status := 200, body := .userInfo u }, db) ∧
    (userInfoEndpoint db header).1.body = .userInfo
      { id := u.id, firstName := u.firstName, lastName := u.lastName, email := u.email,
        mobilePhone := u.mobilePhone, password := u.password, accessToken := u.accessToken,
        bookedTreatments := u.bookedTreatments } := by
  have h : userInfoEndpoint db header = ({ status := 200, body := .userInfo u }, db) := by
    simp [userInfoEndpoint, authenticateUser, hauth]
  exact ⟨h, by rw [h]⟩

theorem user_info_returns_full_document_witness :
    userInfoEndpoint sampleDB (some "tokenA") =
      ({ status := 200, body := .userInfo alice }, sampleDB) :=
  (user_info_returns_full_document sampleDB (some "tokenA") alice (by decide)).1

/-- C2: the registration handler, given a password shorter than 15
characters with otherwise valid fields, sends the 400 password-length
response — but, because the handler does not return after sending it
(src/server.js:179-181), it falls through into the try block and still
persists the new user: the user store is NOT unchanged by the failed
request.  Evaluated here on an empty store: the response is 400, yet
the store afterwards holds the new user. -/
theorem register_short_password_sends_400_but_persists :
    (register { users := [], treatments := [] } shortPwReq 10 1 "tokB").1 =
      { status := 400, body := .registerPwLenError } ∧
    (register { users := [], treatments := [] } shortPwReq 10 1 "tokB").2.users =
      [mkNewUser shortPwReq 10 1 "tokB"] ∧
    (register { users := [], treatments := [] } shortPwReq 10 1 "tokB").2.users ≠ [] := by
  refine ⟨by decide, by decide, by decide⟩

/-- C6: for a successful book-treatment request the booking object in
the 200 response carries both the treatment reference and the booked
date, but the record appended to the persisted `bookedTreatments` list
is the mongoose cast of that object onto the sub-schema of
src/server.js:98-105, which has no `bookedDate` path — so the persisted
record, rendered as a document, differs from the responded booking.
Evaluated on a concrete store: the response booking and the appended
stored record are not the same document. -/
theorem book_response_booking_differs_from_persisted :
    bookTreatmentEndpoint sampleDB (some "tokenA") 5 "2023-07-01" =
      ({ status := 200,
         body := .bookSuccess { treatment := 5, bookedDate := { raw := "2023-07-01" } } },
       { users := [{ alice with bookedTreatments := [{ treatment := 5 }] }],
         treatments := sampleCatalog }) ∧
    bookingDoc { treatment := 5, bookedDate := { raw := "2023-07-01" } } ≠
      storedBookingDoc { treatment := 5 } := by
  refine ⟨by decide, by decide⟩

theorem hasName_seedMissing (c : List Treatment) (n : String) (names : List String)
    (hn : n ∈ names) (hc : hasName c n = false) :
    ∀ f : Nat, hasName (seedMissing c f names) n = true := by
  induction names with
  | nil => cases hn
  | cons m rest ih =>
    intro f
    rcases List.mem_cons.mp hn with hm | hmem
    · subst hm
      rw [seedMissing, if_neg (by simp [hc])]
      simp [hasName]
    · by_cases hcm : hasName c m = true
      · rw [seedMissing, if_pos hcm]
        exact ih hmem f
      · rw [seedMissing, if_neg hcm]
        have := ih hmem (f + 1)
        simp [hasName] at this ⊢
        exact Or.inr this

theorem seedMissing_eq_nil (c : List Treatment) (names : List String)
    (h : ∀ n ∈ names, hasName c n = true) :
    ∀ f : Nat, seedMissing c f names = [] := by
  induction names with
  | nil => intro f; rfl
  | cons m rest ih =>
    intro f
    rw [seedMissing, if_pos (h m (by simp))]
    exact ih (fun n hn => h n (by simp [hn])) f

/-- C4: the treatment seeder is idempotent — running `createTreatments`
a second time against the store produced by a first run adds no
catalog entry, for every starting store and every choice of fresh
identities. -/
theorem createTreatments_idempotent (c : List Treatment) (f f' : Nat) :
    createTreatments (createTreatments c f) f' = createTreatments c f := by
  have hall : ∀ n ∈ seedTreatmentNames, hasName (createTreatments c f) n = true := by
    intro n hn
    rw [createTreatments, hasName, List.any_append]
    by_cases hc : hasName c n = true
    · rw [hasName] at hc; rw [hc]; rfl
    · have : hasName (seedMissing c f seedTreatmentNames) n = true :=
        hasName_seedMissing c n seedTreatmentNames hn (by
          cases hcv : hasName c n with
          | false => rfl
          | true => exact absurd hcv hc) f
      rw [hasName] at this; rw [this, Bool.or_true]
  rw [createTreatments, seedMissing_eq_nil _ _ hall f', List.append_nil]

/-- C7: for every valid registration request with a password of length
15-20, the handler responds 201 with the sanitized projection — names,
email, phone, identity and the newly issued access token, with no
password key in the rendered document — and the persisted user record
stores the password only as the salted bcrypt hash of the plaintext. -/
theorem register_valid_response_sanitized (db : DB) (r : RegisterReq)
    (salt freshId : Nat) (tok : String)
    (hval : validUserInput db.users r = true)
    (hlo : 15 ≤ r.password.length) (hhi : r.password.length ≤ 20) :
    register db r salt freshId tok =
      ({ status := 201, body := .registerSuccess (userProjection (mkNewUser r salt freshId tok)) },
       { users := db.users ++ [mkNewUser r salt freshId tok], treatments := db.treatments }) ∧
    (projectionDoc (userProjection (mkNewUser r salt freshId tok))).lookup "password" = none ∧
    (mkNewUser r salt freshId tok).password = hashSync r.password salt := by
  have hpw : (r.password.length < 15 || r.password.length > 20) = false := by
    simp only [Bool.or_eq_false_iff, decide_eq_false_iff_not, not_lt]
    omega
  refine ⟨?_, rfl, rfl⟩
  simp [register, hval, hpw]

theorem register_valid_response_sanitized_witness :
    register sampleDB validReq 10 2 "tokC" =
      ({ status := 201, body := .registerSuccess (userProjection (mkNewUser validReq 10 2 "tokC")) },
       { users := sampleDB.users ++ [mkNewUser validReq 10 2 "tokC"],
         treatments := sampleDB.treatments }) :=
  (register_valid_response_sanitized sampleDB validReq 10 2 "tokC"
    (by decide) (by decide) (by decide)).1

/-- C8: after a successful registration, logging in with the same email
and password succeeds and returns exactly the access token stored at
registration — login issues no new token — and the login operation
leaves the whole store, in particular the stored user record and its
accessToken, unchanged. -/
theorem login_returns_registration_token (db : DB) (r : RegisterReq)
    (salt freshId : Nat) (tok : String)
    (hval : validUserInput db.users r = true) :
    login (register db r salt freshId tok).2 r.email r.password =
      ({ status := 200, body := .loginSuccess (userProjection (mkNewUser r salt freshId tok)) },
       (register db r salt freshId tok).2) ∧
    (userProjection (mkNewUser r salt freshId tok)).accessToken = tok ∧
    (login (register db r salt freshId tok).2 r.email r.password).2 =
      (register db r salt freshId tok).2 := by
  have hemail : ∀ u ∈ db.users, u.email ≠ r.email := by
    have h' := hval
    simp only [validUserInput, Bool.and_eq_true, decide_eq_true_eq, List.all_eq_true] at h'
    exact h'.1.2
  have hdb : (register db r salt freshId tok).2 =
      { users := db.users ++ [mkNewUser r salt freshId tok], treatments := db.treatments } := by
    simp only [register, hval, if_true]
    split <;> rfl
  have hpre : db.users.find? (fun u => u.email == r.email) = none :=
    find?_none_of_all _ _ (fun u hu => by simp [hemail u hu])
  have hfind : findByEmail (db.users ++ [mkNewUser r salt freshId tok]) r.email =
      some (mkNewUser r salt freshId tok) := by
    rw [findByEmail, find?_append_of_none _ _ _ hpre, List.find?_cons]
    simp [mkNewUser]
  have hcmp : compareSync r.password (mkNewUser r salt freshId tok).password = true := by
    simp [compareSync, mkNewUser, hashSync]
  have hmain : login (register db r salt freshId tok).2 r.email r.password =
      ({ status := 200, body := .loginSuccess (userProjection (mkNewUser r salt freshId tok)) },
       (register db r salt freshId tok).2) := by
    rw [hdb, login]
    simp only [hfind, hcmp, if_true]
  exact ⟨hmain, rfl, by rw [hmain]⟩

theorem login_returns_registration_token_witness :
    login (register sampleDB validReq 10 2 "tokC").2 "anna.j@example.com" "abcdefghijklmnop" =
      ({ status := 200, body := .loginSuccess (userProjection (mkNewUser validReq 10 2 "tokC")) },
       (register sampleDB validReq 10 2 "tokC").2) :=
  (login_returns_registration_token sampleDB validReq 10 2 "tokC" (by decide)).1

/-- The user document after the book-treatment handler appended one
stored booking record for the given treatment (src/server.js:292-294). -/
def addBooking (u : User) (tid : Nat) : User :=
  { u with bookedTreatments := u.bookedTreatments ++ [{ treatment := tid }] }

theorem map_update_of_all_ne (l : List User) (u' : User) (i : Nat)
    (h : ∀ v ∈ l, v.id ≠ i) :
    l.map (fun v => if v.id == i then u' else v) = l := by
  induction l with
  | nil => rfl
  | cons a t ih =>
    rw [List.map_cons, if_neg (by simp [h a (by simp)]),
      ih (fun v hv => h v (by simp [hv]))]

theorem bookStep (pre post : List User) (u : User) (ts : List Treatment) (tok : String)
    (tid : Nat) (pd : String) (T : Treatment)
    (hpreTok : ∀ v ∈ pre, v.accessToken ≠ tok)
    (hpreId : ∀ v ∈ pre, v.id ≠ u.id)
    (hTok : u.accessToken = tok)
    (ht : findTreatment ts tid = some T) :
    bookTreatmentEndpoint { users := pre ++ u :: post, treatments := ts } (some tok) tid pd =
      ({ status := 200, body := .bookSuccess { treatment := T.id, bookedDate := { raw := pd } } },
       { users := pre ++ addBooking u T.id :: updateUser post (addBooking u T.id),
         treatments := ts }) := by
  have hpreTok' : pre.find? (fun v => v.accessToken == tok) = none :=
    find?_none_of_all _ _ (fun v hv => by simp [hpreTok v hv])
  have hauth : findOneByToken (pre ++ u :: post) (some tok) = some u := by
    rw [findOneByToken, find?_append_of_none _ _ _ hpreTok', List.find?_cons]
    simp [hTok]
  have hpreId' : pre.find? (fun v => v.id == u.id) = none :=
    find?_none_of_all _ _ (fun v hv => by simp [hpreId v hv])
  have hid : findById (pre ++ u :: post) u.id = some u := by
    rw [findById, find?_append_of_none _ _ _ hpreId', List.find?_cons]
    simp
  simp only [bookTreatmentEndpoint, authenticateUser, hauth, bookTreatment, hid, ht,
    castBooking, updateUser, addBooking, List.map_append, List.map_cons]
  rw [map_update_of_all_ne pre _ u.id hpreId]
  simp

/-- C9: for every authenticated user and two successive valid
book-treatment requests by that user, the first request appends one
stored booking record and the second appends one more, so after both
requests the user document carries exactly the original list with the
two records appended in call order; both requests return 200 and the
treatment catalog is unchanged throughout.  The user is the first
token match and the first identity match in the store, decomposed as
`pre ++ u :: post`. -/
theorem book_twice_appends_in_order (pre post : List User) (u : User) (ts : List Treatment)
    (tok : String) (t₁ t₂ : Nat) (d₁ d₂ : String) (T₁ T₂ : Treatment)
    (hpreTok : ∀ v ∈ pre, v.accessToken ≠ tok)
    (hpreId : ∀ v ∈ pre, v.id ≠ u.id)
    (hTok : u.accessToken = tok)
    (h₁ : findTreatment ts t₁ = some T₁)
    (h₂ : findTreatment ts t₂ = some T₂) :
    bookTreatmentEndpoint { users := pre ++ u :: post, treatments := ts } (some tok) t₁ d₁ =
      ({ status := 200, body := .bookSuccess { treatment := T₁.id, bookedDate := { raw := d₁ } } },
       { users := pre ++ addBooking u T₁.id :: updateUser post (addBooking u T₁.id),
         treatments := ts }) ∧
    bookTreatmentEndpoint
        { users := pre ++ addBooking u T₁.id :: updateUser post (addBooking u T₁.id),
          treatments := ts } (some tok) t₂ d₂ =
      ({ status := 200, body := .bookSuccess { treatment := T₂.id, bookedDate := { raw := d₂ } } },
       { users := pre ++ addBooking (addBooking u T₁.id) T₂.id ::
           updateUser (updateUser post (addBooking u T₁.id)) (addBooking (addBooking u T₁.id) T₂.id),
         treatments := ts }) ∧
    (addBooking (addBooking u T₁.id) T₂.id).bookedTreatments =
      u.bookedTreatments ++ [{ treatment := T₁.id }, { treatment := T₂.id }] := by
  refine ⟨bookStep pre post u ts tok t₁ d₁ T₁ hpreTok hpreId hTok h₁, ?_, ?_⟩
  · exact bookStep pre (updateUser post (addBooking u T₁.id)) (addBooking u T₁.id) ts tok t₂ d₂ T₂
      hpreTok (by simpa [addBooking] using hpreId) (by simp [addBooking, hTok]) h₂
  · simp [addBooking]

theorem book_twice_appends_in_order_witness :
    bookTreatmentEndpoint { users := [] ++ alice :: [], treatments := sampleCatalog }
        (some "tokenA") 5 "2023-07-01" =
      ({ status := 200, body := .bookSuccess { treatment := 5, bookedDate := { raw := "2023-07-01" } } },
       { users := [] ++ addBooking alice 5 :: updateUser [] (addBooking alice 5),
         treatments := sampleCatalog }) ∧
    bookTreatmentEndpoint
        { users := [] ++ addBooking alice 5 :: updateUser [] (addBooking alice 5),
          treatments := sampleCatalog } (some "tokenA") 6 "2023-07-02" =
      ({ status := 200, body := .bookSuccess { treatment := 6, bookedDate := { raw := "2023-07-02" } } },
       { users := [] ++ addBooking (addBooking alice 5) 6 ::
           updateUser (updateUser [] (addBooking alice 5)) (addBooking (addBooking alice 5) 6),
         treatments := sampleCatalog }) ∧
    (addBooking (addBooking alice 5) 6).bookedTreatments =
      alice.bookedTreatments ++ [{ treatment := 5 }, { treatment := 6 }] :=
  book_twice_appends_in_order [] [] alice sampleCatalog "tokenA" 5 6 "2023-07-01" "2023-07-02"
    { id := 5, name := "Haircut" } { id := 6, name := "Hair Dye" }
    (by simp) (by simp) (by decide) (by decide) (by decide)

end BookingApi
